import Mathlib

/-
Verification of the Personal-Time-Manager-Misc reconciliation core.

The definitions below shallowly embed the Python source:
  - core/base_classes.py        (ScheduledTuition)
  - apis/zoom_meeting.py        (ZoomMeetingManager)
  - apis/google_calendar_meet.py (GoogleCalendarManager)
  - core/calendar_handler.py    (HandleTuitionGoogleCalendarEvents)
  - core/tuition_meeting.py     (HandleTuitionMeetings)
  - core/main_handler.py        (HandleTimeTable) and database/db_handler.py

Datetimes are modelled as integers counting seconds; Python's `int()` on a
float quotient truncates toward zero, which is Lean's `Int.div`; `floor`
is Lean's `Int.fdiv`.  External calls are modelled by explicit behaviour
oracles (may fail or raise), and the stateful sync routines return their
final state together with a trace of the externally visible actions they
performed, in order.
-/

namespace PTM

/-- core/base_classes.py lines 7-14: the pydantic model `ScheduledTuition`
with fields name, start_time, end_time and db_tuition_id (alias 'id').
Datetimes are seconds. -/
structure ScheduledTuition where
  name : String
  start_time : Int
  end_time : Int
  db_tuition_id : String
deriving DecidableEq, Repr

/-- Python `str.replace('_', ' ')`, written on the string's character list:
every underscore becomes a space. -/
def underscoreToSpace (s : String) : String :=
  String.mk (s.data.map (fun c => if c = ('_') then (' ') else c))

/-- base_classes.py lines 16-19: `zoom_meet_topic`, underscore-to-space. -/
def ScheduledTuition.zoom_meet_topic (t : ScheduledTuition) : String :=
  underscoreToSpace t.name

/-- base_classes.py lines 21-24:
`int((self.end_time - self.start_time).total_seconds() / 60)`.
Python `int()` truncates the quotient toward zero, i.e. `Int.tdiv`. -/
def ScheduledTuition.duration_minutes (t : ScheduledTuition) : Int :=
  Int.tdiv (t.end_time - t.start_time) 60

/-- base_classes.py lines 7-14: pydantic construction of a `ScheduledTuition`.
The model declares only field types (and `frozen`); it has no validator
relating `end_time` to `start_time`, so construction from well-typed fields
always succeeds and returns the record unchanged. -/
def ScheduledTuition.validate (name : String) (start_time end_time : Int)
    (id : String) : Option ScheduledTuition :=
  some ⟨name, start_time, end_time, id⟩

/-- apis/zoom_meeting.py lines 62-78: in `create_meeting`, a start time that
is already in the past is moved forward by `timedelta(days=7)` before
submission; otherwise it is submitted unchanged.  Times in seconds. -/
def adjustStartTime (now start : Int) : Int :=
  if start < now then start + 7 * 24 * 60 * 60 else start

/-- apis/zoom_meeting.py line 115: `zoom_weekday = (start_dt.isoweekday() % 7) + 1`,
translating Python's Monday=1..Sunday=7 to Zoom's Sunday=1..Saturday=7. -/
def zoomWeekday (isoweekday : Nat) : Nat :=
  isoweekday % 7 + 1

/-- `requests.Response.raise_for_status`: raises `HTTPError` exactly when the
status code is 4xx or 5xx. -/
def raise_for_status (status : Nat) : Except Unit Unit :=
  if 400 ≤ status then Except.error () else Except.ok ()

/-- apis/zoom_meeting.py lines 145-169: `delete_meeting` returns True on 204
and on 404 ("If it's not there, the goal is achieved").  Any other status
reaches `raise_for_status`: a raised `HTTPError` is caught and the function
returns False; a non-raising status falls through the `try` to the trailing
`return False`. -/
def delete_meeting (status : Nat) : Bool :=
  if status = 204 then true
  else if status = 404 then true
  else
    match raise_for_status status with
    | Except.error _ => false
    | Except.ok _ => false

/-- The outcome of one Google Calendar API call as `delete_event` sees it:
either the call executed, or `googleapiclient` raised `HttpError` carrying a
status code. -/
inductive HttpResult where
  | success
  | httpError (status : Nat)
deriving DecidableEq, Repr

/-- apis/google_calendar_meet.py lines 218-235: `delete_event` returns True
when the call succeeds; on `HttpError` it returns True only for status 410
("already gone") and False for every other status. -/
def delete_event (r : HttpResult) : Bool :=
  match r with
  | HttpResult.success => true
  | HttpResult.httpError s => if s = 410 then true else false

/-- One event as the Google Calendar listing returns it: its id, its
(optional) summary, and whether its private extended properties carry the
application's `ptm_event_key` marker. -/
structure GEvent where
  id : String
  summary : Option String
  hasPtmKey : Bool
deriving DecidableEq, Repr

/-- `event.get('summary', '').startswith("Tuition ")` from
google_calendar_meet.py line 121, written on the character lists. -/
def tuitionTitlePrefixed (e : GEvent) : Bool :=
  List.isPrefixOf ((r"Tuition ").data) ((e.summary.getD (r"")).data)

/-- apis/google_calendar_meet.py lines 74-126: `list_events` over a time
range (the range query itself is the API's; `allEvents` is what the paginated
listing returned).  With `filter_by_key=True` it keeps the events carrying
`ptm_event_key`; with `filter_by_key=False` it keeps the events whose summary
starts with "Tuition ". -/
def list_events (allEvents : List GEvent) (filter_by_key : Bool) : List GEvent :=
  if filter_by_key then allEvents.filter (fun e => e.hasPtmKey)
  else allEvents.filter tuitionTitlePrefixed

/-- One timetable entry (a dict of `solution_data`), as
core/calendar_handler.py reads it: id, name, category, and the naive ISO
time strings. -/
structure TEvent where
  id : String
  name : String
  category : String
  start_time : String
  end_time : String
deriving DecidableEq, Repr

/-- calendar_handler.py lines 30-32: `_generate_event_key`. -/
def entryKey (e : TEvent) : String :=
  (r"ptm-tuition-") ++ e.id

/-- calendar_handler.py line 125: `event['name'].replace('_', ' ')`. -/
def entrySummary (e : TEvent) : String :=
  underscoreToSpace e.name

/-- The externally visible state a calendar sync cycle manipulates: the
remote calendar's events and the local `calendar_events` mapping table
(rows of run id, event key, google event id). -/
structure CalState where
  remote : List GEvent
  mapping : List (Nat × String × String)
deriving DecidableEq, Repr

/-- The externally visible actions of a calendar sync cycle, in order. -/
inductive CalAction where
  | listCall
  | deleteEvent (id : String)
  | clearMapping
  | createEvent (key : String) (summary : String)
  | saveMapping (runId : Nat) (key : String) (gid : String)
deriving DecidableEq, Repr

def CalAction.isCreateA : CalAction → Bool
  | CalAction.createEvent _ _ => true
  | _ => false

def CalAction.isSaveA : CalAction → Bool
  | CalAction.saveMapping _ _ _ => true
  | _ => false

def CalAction.isDeleteA : CalAction → Bool
  | CalAction.deleteEvent _ => true
  | _ => false

def CalAction.isClearA : CalAction → Bool
  | CalAction.clearMapping => true
  | _ => false

/-- How the Google Calendar gateway behaves during one cycle: whether the
listing call raises, and which delete calls raise (a non-raising delete
removes the event; its boolean result is ignored by the caller, as in
calendar_handler.py line 62). -/
structure CalBehavior where
  listRaises : Bool
  deleteRaises : String → Bool
deriving Inhabited

/-- The Python return value of `clean_up_prev_tuition_events`: `None` from
the early return, `False` from the except branch, `True` on completion.
Only `True` is truthy for `run_sync`'s `if not ...: return` test. -/
inductive PyRes where
  | pyNone
  | pyFalse
  | pyTrue
deriving DecidableEq, Repr

/-- calendar_handler.py lines 56-63: the deletion loop inside the cleanup
`try`.  Deletes one event at a time; a raising delete call aborts the loop
(first component `false`), leaving the deletions already made in place. -/
def deleteLoop (b : CalBehavior) : List GEvent → CalState → Bool × CalState × List CalAction
  | [], st => (true, st, [])
  | e :: rest, st =>
    if b.deleteRaises e.id then
      (false, st, [CalAction.deleteEvent e.id])
    else
      let res := deleteLoop b rest ⟨st.remote.filter (fun x => x.id != e.id), st.mapping⟩
      (res.1, res.2.1, CalAction.deleteEvent e.id :: res.2.2)

/-- calendar_handler.py lines 34-73: `clean_up_prev_tuition_events`.
Lists events with `filter_by_key=False`; returns None when the list is
empty; deletes each listed event; any exception inside the `try` (the
listing or a delete) is caught and the function returns False; only after
the whole loop completes is the mapping table cleared and True returned. -/
def clean_up_prev_tuition_events (b : CalBehavior) (st : CalState) :
    PyRes × CalState × List CalAction :=
  if b.listRaises then (PyRes.pyFalse, st, [CalAction.listCall])
  else
    let evs := list_events st.remote false
    if evs.isEmpty then (PyRes.pyNone, st, [CalAction.listCall])
    else
      let res := deleteLoop b evs st
      if res.1 then
        (PyRes.pyTrue, ⟨res.2.1.remote, []⟩,
          CalAction.listCall :: res.2.2 ++ [CalAction.clearMapping])
      else (PyRes.pyFalse, res.2.1, CalAction.listCall :: res.2.2)

/-- Whether an exception occurs inside the cleanup `try` of
`clean_up_prev_tuition_events`: the listing call raises, or some listed
event's delete call raises (the loop runs the listed events in order and
the first raising call is reached). -/
def cleanupRaises (b : CalBehavior) (st : CalState) : Bool :=
  b.listRaises || (list_events st.remote false).any (fun e => b.deleteRaises e.id)

/-- The paths through the per-entry `try` of `run_sync` (calendar_handler.py
lines 108-148): the parsing or localization raises before the create call;
the create call itself raises; the create call returns a falsy result or one
without an 'id' (counted as a failure); or it returns an event id. -/
inductive EntryOutcome where
  | parseRaises
  | createRaises
  | createdNone
  | created (gid : String)
deriving DecidableEq, Repr

def EntryOutcome.isCreatedO : EntryOutcome → Bool
  | EntryOutcome.created _ => true
  | _ => false

def EntryOutcome.isCreatedNoneO : EntryOutcome → Bool
  | EntryOutcome.createdNone => true
  | _ => false

def EntryOutcome.isParseRaisesO : EntryOutcome → Bool
  | EntryOutcome.parseRaises => true
  | _ => false

def EntryOutcome.gidD : EntryOutcome → String
  | EntryOutcome.created g => g
  | _ => (r"")

/-- The result of one calendar sync cycle: final state, action trace, and
the success and failure counters of the summary log line. -/
structure SyncResult where
  state : CalState
  trace : List CalAction
  success_count : Nat
  fail_count : Nat
deriving DecidableEq, Repr

/-- calendar_handler.py lines 106-148: the creation loop of `run_sync`.
Each entry is processed independently inside its own `try`:
an exception (parse or create) is logged and the loop continues with no
counter changed; a falsy create result increments `fail_count`; a created
event increments `success_count`, inserts the event remotely and appends a
mapping row.  A raised exception changes neither counter. -/
def creationLoop (rid : Nat) (outcome : TEvent → EntryOutcome) :
    List TEvent → CalState → SyncResult
  | [], st => ⟨st, [], 0, 0⟩
  | e :: rest, st =>
    match outcome e with
    | EntryOutcome.parseRaises => creationLoop rid outcome rest st
    | EntryOutcome.createRaises =>
      let res := creationLoop rid outcome rest st
      ⟨res.state, CalAction.createEvent (entryKey e) (entrySummary e) :: res.trace,
        res.success_count, res.fail_count⟩
    | EntryOutcome.createdNone =>
      let res := creationLoop rid outcome rest st
      ⟨res.state, CalAction.createEvent (entryKey e) (entrySummary e) :: res.trace,
        res.success_count, res.fail_count + 1⟩
    | EntryOutcome.created gid =>
      let st1 : CalState :=
        ⟨st.remote ++ [⟨gid, some (entrySummary e), true⟩],
          st.mapping ++ [(rid, entryKey e, gid)]⟩
      let res := creationLoop rid outcome rest st1
      ⟨res.state,
        CalAction.createEvent (entryKey e) (entrySummary e) ::
          CalAction.saveMapping rid (entryKey e) gid :: res.trace,
        res.success_count + 1, res.fail_count⟩

/-- calendar_handler.py lines 76-150, after the cleanup: `run_sync` returns
at once unless the cleanup returned True (both None and False are falsy);
aborts when no valid run id or no timetable data exists (each abort branch
performs no further external action); otherwise filters the timetable to
category "Tuition" and runs the creation loop on the post-cleanup state. -/
def run_sync_rest (outcome : TEvent → EntryOutcome) (latest_run : Option Nat)
    (timetable : Nat → Option (List TEvent))
    (c : PyRes × CalState × List CalAction) : SyncResult :=
  if c.1 ≠ PyRes.pyTrue then ⟨c.2.1, [], 0, 0⟩
  else
    match latest_run with
    | none => ⟨c.2.1, [], 0, 0⟩
    | some rid =>
      match timetable rid with
      | none => ⟨c.2.1, [], 0, 0⟩
      | some data =>
        if data.isEmpty then ⟨c.2.1, [], 0, 0⟩
        else
          creationLoop rid outcome
            (data.filter (fun e => e.category == (r"Tuition"))) c.2.1

/-- calendar_handler.py lines 76-150: `run_sync`, the whole cycle: the
cleanup's actions followed by whatever `run_sync_rest` does after it. -/
def run_sync (b : CalBehavior) (outcome : TEvent → EntryOutcome)
    (latest_run : Option Nat) (timetable : Nat → Option (List TEvent))
    (st : CalState) : SyncResult :=
  let c := clean_up_prev_tuition_events b st
  let rest := run_sync_rest outcome latest_run timetable c
  ⟨rest.state, c.2.2 ++ rest.trace, rest.success_count, rest.fail_count⟩

/-- The externally visible actions of the Zoom meeting sync, in order. -/
inductive MeetAction where
  | createMeeting (topic : String)
  | updateDbLink (tuitionId : String)
  | deleteOldMeeting (meetingId : String)
deriving DecidableEq, Repr

/-- How the collaborators behave during one meeting sync: the result of
`create_meeting` (None on failure), the result of the database link update,
and the `meeting_id` of the tuition's pre-existing meeting, when one is
recorded in `existing_tuitions`. -/
structure MeetBehavior where
  createRes : ScheduledTuition → Option (Nat × String)
  updateRes : String → Bool
  oldMeetingId : String → Option String

/-- core/tuition_meeting.py lines 70-109: the body of `_sync_meetings` for
one tuition — the "Create -> Update DB -> Delete Old" strategy of its
docstring.  Step 1 creates the new Zoom meeting (the attempt always
happens); on failure the entry is skipped.  Step 2 updates the database
link; on failure the entry is skipped (the new meeting stays).  Step 3
deletes the old meeting, when one existed. -/
def syncOneTuition (mb : MeetBehavior) (t : ScheduledTuition) : List MeetAction :=
  MeetAction.createMeeting t.zoom_meet_topic ::
    match mb.createRes t with
    | none => []
    | some _ =>
      MeetAction.updateDbLink t.db_tuition_id ::
        if mb.updateRes t.db_tuition_id then
          match mb.oldMeetingId t.db_tuition_id with
          | some omid => [MeetAction.deleteOldMeeting omid]
          | none => []
        else []

/-- tuition_meeting.py lines 61-109: `_sync_meetings` over the prepared
scheduled tuitions, in order. -/
def sync_meetings (mb : MeetBehavior) (ts : List ScheduledTuition) : List MeetAction :=
  ts.flatMap (syncOneTuition mb)

/-- One row of `timetable_runs` as the validator's query reads it: id,
`run_started_at`, `status`, and the nullable `solution_data` payload. -/
structure ScheduleRun where
  id : Nat
  run_started_at : Int
  status : String
  solution_data : Option (List TEvent)
deriving DecidableEq, Repr

/-- common/config.py line 14: `VALID_RUN_STATUSES = ("SUCCESS", "MANUAL")`. -/
def VALID_RUN_STATUSES : List String :=
  [(r"SUCCESS"), (r"MANUAL")]

/-- The WHERE clause of `fetch_latest_successful_run_id`
(database/db_handler.py lines 135-140): status in the allowed set and
`solution_data IS NOT NULL`. -/
def validRun (row : ScheduleRun) : Bool :=
  VALID_RUN_STATUSES.contains row.status && row.solution_data.isSome

/-- `ORDER BY run_started_at DESC LIMIT 1`: of two candidate rows, keep the
later-started one (the first scanned on ties). -/
def laterRun (a b : ScheduleRun) : ScheduleRun :=
  if a.run_started_at < b.run_started_at then b else a

/-- database/db_handler.py lines 133-155: `fetch_latest_successful_run_id`.
Returns the id of the run with the greatest `run_started_at` among the rows
passing the WHERE clause, or None when no row passes. -/
def fetch_latest_successful_run_id (runs : List ScheduleRun) : Option Nat :=
  match runs.filter validRun with
  | [] => none
  | row :: rest => some (rest.foldl laterRun row).id

/-- core/main_handler.py lines 45-52: `_validate_trigger` marks the trigger
valid exactly when `fetch_latest_successful_run_id` found a run; the
trigger's channel and payload are never consulted. -/
def validate_trigger (channel : String) (payload : String)
    (runs : List ScheduleRun) : Bool :=
  (fetch_latest_successful_run_id runs).isSome

/-- The partial-failure scenario of one calendar cycle: the calendar holds
one prior app-created event, the latest run (id 5) has three "Tuition"
entries, and the gateway's create call raises for the second entry while
the first and third succeed. -/
def threeEntryCycle : SyncResult :=
  run_sync ⟨false, fun _ => false⟩
    (fun e => if e.id == (r"e1") then EntryOutcome.created (r"g1")
      else if e.id == (r"e2") then EntryOutcome.createRaises
      else EntryOutcome.created (r"g3"))
    (some 5)
    (fun _ => some [⟨(r"e1"), (r"A_1"), (r"Tuition"), (r"s"), (r"t")⟩,
      ⟨(r"e2"), (r"B_2"), (r"Tuition"), (r"s"), (r"t")⟩,
      ⟨(r"e3"), (r"C_3"), (r"Tuition"), (r"s"), (r"t")⟩])
    ⟨[⟨(r"prior"), some (r"Tuition Prior"), true⟩], []⟩

/-- An action of the deletion loop is the deletion of one listed event. -/
theorem deleteLoop_trace_shape (b : CalBehavior) :
    ∀ (evs : List GEvent) (st : CalState) (a : CalAction),
      a ∈ (deleteLoop b evs st).2.2 → ∃ e, e ∈ evs ∧ a = CalAction.deleteEvent e.id := by
  intro evs
  induction evs with
  | nil => intro st a h; simp [deleteLoop] at h
  | cons e rest ih =>
    intro st a h
    cases hr : b.deleteRaises e.id
    · rw [deleteLoop, if_neg (by simp [hr])] at h
      rcases List.mem_cons.mp h with h1 | h1
      · exact ⟨e, List.mem_cons_self e rest, h1⟩
      · obtain ⟨e2, he2, ha⟩ := ih _ a h1
        exact ⟨e2, List.mem_cons_of_mem e he2, ha⟩
    · rw [deleteLoop, if_pos (by simp [hr])] at h
      rcases List.mem_cons.mp h with h1 | h1
      · exact ⟨e, List.mem_cons_self e rest, h1⟩
      · simp at h1

/-- The deletion loop never touches the mapping table. -/
theorem deleteLoop_mapping (b : CalBehavior) :
    ∀ (evs : List GEvent) (st : CalState),
      (deleteLoop b evs st).2.1.mapping = st.mapping := by
  intro evs
  induction evs with
  | nil => intro st; rfl
  | cons e rest ih =>
    intro st
    cases hr : b.deleteRaises e.id
    · rw [deleteLoop, if_neg (by simp [hr])]
      exact ih _
    · rw [deleteLoop, if_pos (by simp [hr])]

/-- When some listed event's delete call raises, the deletion loop reports
failure. -/
theorem deleteLoop_false_of_any (b : CalBehavior) :
    ∀ (evs : List GEvent) (st : CalState),
      evs.any (fun e => b.deleteRaises e.id) = true → (deleteLoop b evs st).1 = false := by
  intro evs
  induction evs with
  | nil => intro st h; simp at h
  | cons e rest ih =>
    intro st h
    cases hr : b.deleteRaises e.id
    · rw [deleteLoop, if_neg (by simp [hr])]
      rw [List.any_cons, hr, Bool.false_or] at h
      exact ih _ h
    · rw [deleteLoop, if_pos (by simp [hr])]

/-- Every action of the creation loop is a creation or a mapping save. -/
theorem creationLoop_trace_shape (rid : Nat) (outcome : TEvent → EntryOutcome) :
    ∀ (es : List TEvent) (st : CalState) (a : CalAction),
      a ∈ (creationLoop rid outcome es st).trace →
        a.isCreateA = true ∨ a.isSaveA = true := by
  intro es
  induction es with
  | nil => intro st a h; simp [creationLoop] at h
  | cons e rest ih =>
    intro st a h
    cases ho : outcome e <;> rw [creationLoop, ho] at h
    · exact ih _ a h
    · rcases List.mem_cons.mp h with h1 | h1
      · left; rw [h1]; rfl
      · exact ih _ a h1
    · rcases List.mem_cons.mp h with h1 | h1
      · left; rw [h1]; rfl
      · exact ih _ a h1
    · rcases List.mem_cons.mp h with h1 | h1
      · left; rw [h1]; rfl
      · rcases List.mem_cons.mp h1 with h2 | h2
        · right; rw [h2]; rfl
        · exact ih _ a h2

/-- A creation or save action is neither a deletion nor the mapping clear. -/
theorem create_or_save_not_delete (a : CalAction)
    (h : a.isCreateA = true ∨ a.isSaveA = true) :
    a.isDeleteA = false ∧ a.isClearA = false := by
  cases a <;> simp [CalAction.isDeleteA, CalAction.isClearA] <;>
    simp [CalAction.isCreateA, CalAction.isSaveA] at h

/-- Every action emitted after the cleanup is a creation or a save. -/
theorem run_sync_rest_trace_shape (outcome : TEvent → EntryOutcome)
    (lr : Option Nat) (tt : Nat → Option (List TEvent))
    (c : PyRes × CalState × List CalAction) :
    ∀ a ∈ (run_sync_rest outcome lr tt c).trace,
      a.isCreateA = true ∨ a.isSaveA = true := by
  intro a ha
  unfold run_sync_rest at ha
  split at ha
  · simp at ha
  · split at ha
    · simp at ha
    · split at ha
      · simp at ha
      · split at ha
        · simp at ha
        · exact creationLoop_trace_shape _ _ _ _ a ha

/-- Every action of the cleanup routine is the listing call, the deletion
of one event the title-prefix listing returned, or the mapping clear. -/
theorem cleanup_trace_shape (b : CalBehavior) (st : CalState) (a : CalAction)
    (h : a ∈ (clean_up_prev_tuition_events b st).2.2) :
    a = CalAction.listCall ∨
      (∃ e, e ∈ list_events st.remote false ∧ a = CalAction.deleteEvent e.id) ∨
      a = CalAction.clearMapping := by
  unfold clean_up_prev_tuition_events at h
  split at h
  · rcases List.mem_cons.mp h with h1 | h1
    · exact Or.inl h1
    · simp at h1
  · dsimp only at h
    split at h
    · rcases List.mem_cons.mp h with h1 | h1
      · exact Or.inl h1
      · simp at h1
    · split at h
      · rcases List.mem_cons.mp h with h1 | h1
        · exact Or.inl h1
        · rcases List.mem_append.mp h1 with h2 | h2
          · exact Or.inr (Or.inl (deleteLoop_trace_shape b _ st a h2))
          · exact Or.inr (Or.inr (by simpa using h2))
      · rcases List.mem_cons.mp h with h1 | h1
        · exact Or.inl h1
        · exact Or.inr (Or.inl (deleteLoop_trace_shape b _ st a h1))

/-- C4, counterexample: Google's `delete_event` returns failure on a 404
"not found" response, and Zoom's `delete_meeting` returns failure on a 410
"gone" response, so neither gateway treats both not-found statuses as
success. -/
theorem delete_not_found_asymmetry :
    delete_event (HttpResult.httpError 404) = false ∧ delete_meeting 410 = false := by
  decide

/-- C4 (amended): each gateway's delete treats exactly one of the two
"not found" statuses as success: Google's `delete_event` returns success
on a plain success and on `HttpError` status 410 only; Zoom's
`delete_meeting` returns success on status 204 and 404 only. -/
theorem delete_not_found_statuses :
    (∀ s : Nat, delete_event (HttpResult.httpError s) = (s == 410)) ∧
    delete_event HttpResult.success = true ∧
    (∀ s : Nat, delete_meeting s = (s == 204 || s == 404)) := by
  refine ⟨?_, rfl, ?_⟩
  · intro s
    by_cases h : s = 410 <;> simp [delete_event, h]
  · intro s
    by_cases h1 : s = 204
    · simp [delete_meeting, h1]
    · by_cases h2 : s = 404
      · simp [delete_meeting, h1, h2]
      · have hv : delete_meeting s = false := by
          unfold delete_meeting
          rw [if_neg h1, if_neg h2]
          cases raise_for_status s <;> rfl
        simp [hv, h1, h2]

/-- C5, counterexample: a `ScheduledTuition` whose end time equals its start
time is constructed successfully (pydantic validates field types only), so
construction does not fail on end ≤ start and the constructed value violates
start_time < end_time. -/
theorem scheduled_tuition_end_le_start_constructs :
    (ScheduledTuition.validate (r"Math_Tutor") 100 100 (r"abc")).isSome = true ∧
    ¬ ((⟨(r"Math_Tutor"), 100, 100, (r"abc")⟩ : ScheduledTuition).start_time
        < (⟨(r"Math_Tutor"), 100, 100, (r"abc")⟩ : ScheduledTuition).end_time) := by
  decide

/-- C5 (amended): constructing a `ScheduledTuition` never fails on the
relation between end and start time: the pydantic model has no validator
comparing them, so construction from any well-typed fields succeeds and
returns the record unchanged; in particular end_time > start_time does not
hold of every constructed value. -/
theorem scheduled_tuition_validate_total :
    ∀ (name : String) (s e : Int) (id : String),
      ScheduledTuition.validate name s e id = some ⟨name, s, e, id⟩ :=
  fun _ _ _ _ => rfl

/-- C6, counterexample: for a `ScheduledTuition` with end 90 seconds before
start, `duration_minutes` is -1 (Python `int()` truncates toward zero)
while the floor of -90/60 is -2, and -1 is negative: both conjuncts of the
claim fail. -/
theorem duration_minutes_not_floor_when_negative :
    ¬ (∀ t : ScheduledTuition,
        t.duration_minutes = Int.fdiv (t.end_time - t.start_time) 60 ∧
        0 ≤ t.duration_minutes) := by
  intro h
  have hc := h ⟨(r"X"), 90, 0, (r"a")⟩
  revert hc
  decide

/-- C6 (amended): for every `ScheduledTuition` whose end time is at or after
its start time, `duration_minutes` equals the floor of
(end_time - start_time)/60 and is nonnegative; in general the computation
truncates toward zero, which differs from the floor exactly when the
difference is negative. -/
theorem duration_minutes_floor_of_nonneg :
    ∀ t : ScheduledTuition, t.start_time ≤ t.end_time →
      t.duration_minutes = Int.fdiv (t.end_time - t.start_time) 60 ∧
      0 ≤ t.duration_minutes := by
  intro t h
  have h0 : (0 : Int) ≤ t.end_time - t.start_time := by omega
  unfold ScheduledTuition.duration_minutes
  exact ⟨(Int.fdiv_eq_tdiv h0 (by decide)).symm, Int.tdiv_nonneg h0 (by decide)⟩

/-- C6 witness: the amended statement at a concrete tuition of 3690
seconds: 61 minutes, nonnegative. -/
theorem duration_minutes_floor_of_nonneg_witness :
    (⟨(r"X"), 0, 3690, (r"a")⟩ : ScheduledTuition).duration_minutes
        = Int.fdiv ((⟨(r"X"), 0, 3690, (r"a")⟩ : ScheduledTuition).end_time
            - (⟨(r"X"), 0, 3690, (r"a")⟩ : ScheduledTuition).start_time) 60 ∧
    0 ≤ (⟨(r"X"), 0, 3690, (r"a")⟩ : ScheduledTuition).duration_minutes :=
  duration_minutes_floor_of_nonneg ⟨(r"X"), 0, 3690, (r"a")⟩ (by decide)

/-- C7: whenever the computed start time is in the past at creation time,
`create_meeting` submits a start time exactly 7 days (604800 seconds) later,
which falls at the same clock time of day (equal residues modulo 86400
seconds); the request is not rejected and the original past instant is not
submitted. -/
theorem create_meeting_past_start_rescheduled :
    ∀ now start : Int, start < now →
      adjustStartTime now start = start + 7 * 24 * 60 * 60 ∧
      adjustStartTime now start % (24 * 60 * 60) = start % (24 * 60 * 60) := by
  intro now start h
  unfold adjustStartTime
  rw [if_pos h]
  exact ⟨rfl, by omega⟩

/-- C7 witness: a start one hour in the past is moved exactly one week
forward, keeping its clock time. -/
theorem create_meeting_past_start_rescheduled_witness :
    adjustStartTime 0 (-3600) = -3600 + 7 * 24 * 60 * 60 ∧
    adjustStartTime 0 (-3600) % (24 * 60 * 60) = (-3600 : Int) % (24 * 60 * 60) :=
  create_meeting_past_start_rescheduled 0 (-3600) (by decide)

/-- C8: the weekday translation `(local_isoweekday % 7) + 1` used for
recurring Zoom meetings satisfies the full table Monday(1)→2, Tuesday(2)→3,
Wednesday(3)→4, Thursday(4)→5, Friday(5)→6, Saturday(6)→7, Sunday(7)→1. -/
theorem zoom_weekday_table :
    zoomWeekday 1 = 2 ∧ zoomWeekday 2 = 3 ∧ zoomWeekday 3 = 4 ∧ zoomWeekday 4 = 5 ∧
    zoomWeekday 5 = 6 ∧ zoomWeekday 6 = 7 ∧ zoomWeekday 7 = 1 := by
  decide

/-- C1, counterexample: the meeting sync processes a tuition with an
existing old meeting (id "555") by first creating the new Zoom meeting,
then updating the database link, and only then deleting the old meeting —
it creates the new artifact before the old one has been deleted, so the
meeting sync does not follow the delete-before-create protocol. -/
theorem meeting_sync_creates_before_deleting_old :
    sync_meetings ⟨fun _ => some (555, (r"url")), fun _ => true, fun _ => some (r"555")⟩
        [⟨(r"Math_Tutor"), 0, 3600, (r"abc")⟩]
      = [MeetAction.createMeeting (r"Math Tutor"), MeetAction.updateDbLink (r"abc"),
         MeetAction.deleteOldMeeting (r"555")] := by
  decide

/-- C1 (amended): the calendar sync follows the clear-and-replace order —
its trace splits into a phase containing no creation and no mapping save
(the listing, the deletions and the mapping clear) followed by a phase
containing no deletion and no mapping clear — but the meeting sync does
not: for every tuition its first action is creating the new meeting, and
the deletion of that tuition's old meeting can only come later. -/
theorem sync_phase_order :
    (∀ (b : CalBehavior) (outcome : TEvent → EntryOutcome) (lr : Option Nat)
        (tt : Nat → Option (List TEvent)) (st : CalState),
      ∃ pre post, (run_sync b outcome lr tt st).trace = pre ++ post ∧
        (∀ a ∈ pre, a.isCreateA = false ∧ a.isSaveA = false) ∧
        (∀ a ∈ post, a.isDeleteA = false ∧ a.isClearA = false)) ∧
    (∀ (mb : MeetBehavior) (t : ScheduledTuition), ∃ rest,
      syncOneTuition mb t = MeetAction.createMeeting t.zoom_meet_topic :: rest) := by
  constructor
  · intro b outcome lr tt st
    refine ⟨(clean_up_prev_tuition_events b st).2.2,
      (run_sync_rest outcome lr tt (clean_up_prev_tuition_events b st)).trace,
      rfl, ?_, ?_⟩
    · intro a ha
      rcases cleanup_trace_shape b st a ha with h | ⟨e, _, h⟩ | h <;>
        rw [h] <;> exact ⟨rfl, rfl⟩
    · intro a ha
      exact create_or_save_not_delete a (run_sync_rest_trace_shape _ _ _ _ a ha)
  · intro mb t
    exact ⟨_, rfl⟩

/-- C2, counterexample: the calendar initially holds two events created by
a prior cycle, both carrying the embedded `ptm_event_key` marker: one
titled "Tuition Old" and one titled "Math Tutor".  After one full
reconciliation cycle over a dataset with the single entry Math_Tutor/abc,
the prior "Math Tutor" artifact is still on the calendar (the cleanup
matched only titles starting with "Tuition "), so the calendar ends with
two artifacts titled "Math Tutor" instead of one and a nonzero number of
leftovers. -/
theorem cleanup_leaves_differently_titled_artifact :
    (run_sync ⟨false, fun _ => false⟩
        (fun e => EntryOutcome.created ((r"g-") ++ e.id))
        (some 7)
        (fun _ => some [⟨(r"abc"), (r"Math_Tutor"), (r"Tuition"), (r"s"), (r"t")⟩])
        ⟨[⟨(r"old-tuition"), some (r"Tuition Old"), true⟩,
          ⟨(r"old-math"), some (r"Math Tutor"), true⟩], []⟩).state.remote
      = [⟨(r"old-math"), some (r"Math Tutor"), true⟩,
         ⟨(r"g-abc"), some (r"Math Tutor"), true⟩] := by
  decide

/-- C2 (amended): the cleanup step identifies the artifacts to delete by
the title-prefix convention, not by the embedded key: every deletion
performed anywhere in one reconciliation cycle targets an event returned
by the listing with `filter_by_key=False`, i.e. an event whose summary
starts with "Tuition "; artifacts with other titles are never deleted,
whether or not they carry the embedded `ptm_event_key`. -/
theorem cleanup_deletes_only_title_prefixed :
    ∀ (b : CalBehavior) (outcome : TEvent → EntryOutcome) (lr : Option Nat)
      (tt : Nat → Option (List TEvent)) (st : CalState) (id : String),
      CalAction.deleteEvent id ∈ (run_sync b outcome lr tt st).trace →
        id ∈ (list_events st.remote false).map GEvent.id := by
  intro b outcome lr tt st id h
  have hsplit : (run_sync b outcome lr tt st).trace
      = (clean_up_prev_tuition_events b st).2.2
        ++ (run_sync_rest outcome lr tt (clean_up_prev_tuition_events b st)).trace := rfl
  rw [hsplit] at h
  rcases List.mem_append.mp h with h | h
  · rcases cleanup_trace_shape b st _ h with h1 | ⟨e, he, h1⟩ | h1
    · simp at h1
    · have hid : id = e.id := by injection h1
      exact List.mem_map.mpr ⟨e, he, hid.symm⟩
    · simp at h1
  · rcases run_sync_rest_trace_shape _ _ _ _ _ h with h1 | h1 <;>
      simp [CalAction.isCreateA, CalAction.isSaveA] at h1

/-- C2 witness: the amended statement at a calendar holding one
"Tuition X" event, whose deletion the cycle indeed performs. -/
theorem cleanup_deletes_only_title_prefixed_witness :
    (r"x1") ∈ (list_events [⟨(r"x1"), some (r"Tuition X"), true⟩] false).map GEvent.id :=
  cleanup_deletes_only_title_prefixed ⟨false, fun _ => false⟩
    (fun _ => EntryOutcome.createdNone) none (fun _ => none)
    ⟨[⟨(r"x1"), some (r"Tuition X"), true⟩], []⟩ (r"x1") (by decide)

/-- C3, counterexample: in the three-entry cycle whose second create call
raises, the cycle does attempt all three creations and persists the
mappings of entries 1 and 3, but the emitted summary reports 2 successes
and 0 failures — not the 1 failure the claim requires, because the
exception handler increments no counter. -/
theorem creation_exception_not_counted_failure :
    threeEntryCycle.success_count = 2 ∧ threeEntryCycle.fail_count = 0 ∧
    threeEntryCycle.state.mapping
      = [(5, (r"ptm-tuition-e1"), (r"g1")), (5, (r"ptm-tuition-e3"), (r"g3"))] ∧
    (threeEntryCycle.trace.filter CalAction.isCreateA).length = 3 := by
  decide

/-- C3 (amended): the creation loop isolates per-entry failures: it
attempts a creation for every entry whose processing reaches the gateway
call, persists one mapping per successful creation (so entries 1 and 3 of
the scenario are attempted and persisted despite entry 2 raising), and the
summary counts one success per entry whose create call returned an event
and one failure per entry whose create call returned an unsuccessful
result without raising — an entry whose create call raises is logged but
counted in neither total, so the scenario reports 2 successes and 0
failures. -/
theorem creation_loop_summary :
    ∀ (rid : Nat) (outcome : TEvent → EntryOutcome) (es : List TEvent) (st : CalState),
      (creationLoop rid outcome es st).success_count
          = es.countP (fun e => (outcome e).isCreatedO) ∧
      (creationLoop rid outcome es st).fail_count
          = es.countP (fun e => (outcome e).isCreatedNoneO) ∧
      (creationLoop rid outcome es st).state.mapping
          = st.mapping ++ (es.filter (fun e => (outcome e).isCreatedO)).map
              (fun e => (rid, entryKey e, (outcome e).gidD)) ∧
      (creationLoop rid outcome es st).trace.filter CalAction.isCreateA
          = (es.filter (fun e => !(outcome e).isParseRaisesO)).map
              (fun e => CalAction.createEvent (entryKey e) (entrySummary e)) := by
  intro rid outcome es
  induction es with
  | nil => intro st; simp [creationLoop]
  | cons e rest ih =>
    intro st
    obtain ⟨ihs, ihf, ihm, iht⟩ := ih st
    cases ho : outcome e <;> rw [creationLoop, ho] <;>
      simp [List.countP_cons, List.filter_cons, ho, EntryOutcome.isCreatedO,
        EntryOutcome.isCreatedNoneO, EntryOutcome.isParseRaisesO, EntryOutcome.gidD,
        CalAction.isCreateA, CalAction.isSaveA]
    · exact ⟨ihs, ihf, ihm, iht⟩
    · exact ⟨ihs, ihf, ihm, iht⟩
    · exact ⟨ihs, ihf, ihm, iht⟩
    · rename_i gid
      obtain ⟨ihs2, ihf2, ihm2, iht2⟩ :=
        ih ⟨st.remote ++ [⟨gid, some (entrySummary e), true⟩],
          st.mapping ++ [(rid, entryKey e, gid)]⟩
      refine ⟨ihs2, ihf2, ?_, iht2⟩
      rw [ihm2]
      simp
      rfl

/-- C9: the trigger validator declares a trigger valid exactly when the
store holds at least one run whose status is in the allowed-status set and
whose payload is non-null, and its verdict is independent of the trigger's
channel and payload (it re-queries the store instead of trusting the
notification). -/
theorem validate_trigger_iff_valid_run :
    (∀ (channel payload : String) (runs : List ScheduleRun),
      validate_trigger channel payload runs = true ↔
        ∃ row, row ∈ runs ∧ row.status ∈ VALID_RUN_STATUSES ∧
          row.solution_data.isSome = true) ∧
    (∀ (c1 p1 c2 p2 : String) (runs : List ScheduleRun),
      validate_trigger c1 p1 runs = validate_trigger c2 p2 runs) := by
  constructor
  · intro channel payload runs
    have hval : ∀ row : ScheduleRun, validRun row = true ↔
        row.status ∈ VALID_RUN_STATUSES ∧ row.solution_data.isSome = true := by
      intro row
      unfold validRun
      rw [Bool.and_eq_true]
      constructor
      · rintro ⟨h1, h2⟩
        exact ⟨by simpa [List.contains] using h1, h2⟩
      · rintro ⟨h1, h2⟩
        exact ⟨by simpa [List.contains] using h1, h2⟩
    constructor
    · intro h
      unfold validate_trigger fetch_latest_successful_run_id at h
      rcases hf : runs.filter validRun with _ | ⟨row, rest⟩
      · rw [hf] at h; simp at h
      · have hrow : row ∈ runs.filter validRun := by
          rw [hf]; exact List.mem_cons_self row rest
        have hm := List.mem_filter.mp hrow
        exact ⟨row, hm.1, (hval row).mp hm.2⟩
    · rintro ⟨row, hmem, hrest⟩
      have hrow : row ∈ runs.filter validRun :=
        List.mem_filter.mpr ⟨hmem, (hval row).mpr hrest⟩
      unfold validate_trigger fetch_latest_successful_run_id
      rcases hf : runs.filter validRun with _ | ⟨r0, rest⟩
      · rw [hf] at hrow; simp at hrow
      · rfl
  · intro c1 p1 c2 p2 runs
    rfl

/-- C10: when the listing call or any individual delete call raises inside
the cleanup routine, the cleanup returns the failure value False, the
mapping table it hands back is unchanged, and the whole cycle stops there:
the cycle's final mapping table equals the initial one, its trace contains
no creation, and it reports zero successes. -/
theorem cleanup_error_preserves_state :
    ∀ (b : CalBehavior) (outcome : TEvent → EntryOutcome) (lr : Option Nat)
      (tt : Nat → Option (List TEvent)) (st : CalState),
      cleanupRaises b st = true →
        (clean_up_prev_tuition_events b st).1 = PyRes.pyFalse ∧
        (clean_up_prev_tuition_events b st).2.1.mapping = st.mapping ∧
        (run_sync b outcome lr tt st).state.mapping = st.mapping ∧
        (∀ a ∈ (run_sync b outcome lr tt st).trace, a.isCreateA = false) ∧
        (run_sync b outcome lr tt st).success_count = 0 := by
  intro b outcome lr tt st h
  unfold cleanupRaises at h
  have hcl : (clean_up_prev_tuition_events b st).1 = PyRes.pyFalse ∧
      (clean_up_prev_tuition_events b st).2.1.mapping = st.mapping := by
    unfold clean_up_prev_tuition_events
    cases hl : b.listRaises
    · rw [hl, Bool.false_or] at h
      have hne : (list_events st.remote false).isEmpty = false := by
        rcases hev : list_events st.remote false with _ | _
        · rw [hev] at h; simp at h
        · rfl
      rw [if_neg (by simp [hl])]
      dsimp only
      rw [if_neg (by simp [hne])]
      have hfail := deleteLoop_false_of_any b (list_events st.remote false) st h
      rw [if_neg (by simp [hfail])]
      exact ⟨rfl, deleteLoop_mapping b _ st⟩
    · rw [if_pos (by simp [hl])]
      exact ⟨rfl, rfl⟩
  have hnt : (clean_up_prev_tuition_events b st).1 ≠ PyRes.pyTrue := by
    rw [hcl.1]
    intro hx
    cases hx
  have hrest : run_sync_rest outcome lr tt (clean_up_prev_tuition_events b st)
      = ⟨(clean_up_prev_tuition_events b st).2.1, [], 0, 0⟩ := by
    unfold run_sync_rest
    rw [if_pos hnt]
  refine ⟨hcl.1, hcl.2, ?_, ?_, ?_⟩
  · show (run_sync_rest outcome lr tt (clean_up_prev_tuition_events b st)).state.mapping
      = st.mapping
    rw [hrest]
    exact hcl.2
  · intro a ha
    have hsplit : (run_sync b outcome lr tt st).trace
        = (clean_up_prev_tuition_events b st).2.2
          ++ (run_sync_rest outcome lr tt (clean_up_prev_tuition_events b st)).trace := rfl
    rw [hsplit, hrest] at ha
    rw [List.append_nil] at ha
    rcases cleanup_trace_shape b st a ha with h1 | ⟨e, _, h1⟩ | h1 <;> rw [h1] <;> rfl
  · show (run_sync_rest outcome lr tt (clean_up_prev_tuition_events b st)).success_count = 0
    rw [hrest]

/-- C10 witness: the statement at a gateway whose listing call raises, with
one pre-existing mapping row that must survive. -/
theorem cleanup_error_preserves_state_witness :
    (clean_up_prev_tuition_events ⟨true, fun _ => false⟩ ⟨[], [(1, (r"k"), (r"g"))]⟩).1
        = PyRes.pyFalse ∧
    (clean_up_prev_tuition_events ⟨true, fun _ => false⟩ ⟨[], [(1, (r"k"), (r"g"))]⟩).2.1.mapping
        = (⟨[], [(1, (r"k"), (r"g"))]⟩ : CalState).mapping ∧
    (run_sync ⟨true, fun _ => false⟩ (fun _ => EntryOutcome.createdNone) none (fun _ => none)
        ⟨[], [(1, (r"k"), (r"g"))]⟩).state.mapping
        = (⟨[], [(1, (r"k"), (r"g"))]⟩ : CalState).mapping ∧
    (∀ a ∈ (run_sync ⟨true, fun _ => false⟩ (fun _ => EntryOutcome.createdNone) none
        (fun _ => none) ⟨[], [(1, (r"k"), (r"g"))]⟩).trace, a.isCreateA = false) ∧
    (run_sync ⟨true, fun _ => false⟩ (fun _ => EntryOutcome.createdNone) none (fun _ => none)
        ⟨[], [(1, (r"k"), (r"g"))]⟩).success_count = 0 :=
  cleanup_error_preserves_state ⟨true, fun _ => false⟩ (fun _ => EntryOutcome.createdNone)
    none (fun _ => none) ⟨[], [(1, (r"k"), (r"g"))]⟩ rfl

end PTM
